import Mathlib

/-!
Verification of the serving core of `fx` (`src/fx/src/serve.rs`).

The handlers in `serve.rs` are shallowly embedded as pure Lean functions over
an explicit `Store` state.  External collaborators (the relational storage for
posts, the urlencoded form decoder, the session check, the backup trigger, the
HTML renderer) are modelled by the narrow contracts the spec gives in §6:

* storage operations on `Store` carry explicit failure flags, since every
  storage operation may return `StorageError`;
* the session check is a boolean input to each handler (`loggedIn`);
* the backup trigger is counted (`triggers` in `HResult`), not executed;
* rendering is abstracted into the `Outcome` type, which records which page
  kind was produced, together with the data (e.g. the preview `Post`) that the
  handler passed to the renderer.

A Rust `panic!`-style abort (an `unwrap` on an `Err`) is modelled by the
`Outcome.panicked` constructor; `list_posts` returns `none` when the Rust code
would abort (integer underflow on `page - 1` followed by an out-of-bounds
slice).  `usize` arithmetic is modelled on `Nat` with explicit wrapping modulo
`2 ^ 64`, matching release-mode Rust semantics.
-/

namespace Fx

/-- A post row: integer identity (`i64` in the source, `0` meaning "not yet
persisted"), creation and update timestamps, and raw content.  Timestamps are
abstracted to `Nat` instants. -/
structure Post where
  id : Int
  created : Nat
  updated : Nat
  content : String
deriving DecidableEq, Repr

/-- The database state seen through the storage contract, plus one failure
flag per storage operation so that `StorageError` outcomes can be exercised.
`nextId` is the id the next successful insert will assign. -/
structure Store where
  posts : List Post
  nextId : Int
  failList : Bool
  failGet : Bool
  failInsert : Bool
  failUpdate : Bool
  failDelete : Bool
deriving DecidableEq, Repr

/-- Modelled from the spec: `Post.list() -> ordered sequence of Post` or a
storage error (the implementation lives in the repository's `data` module,
which is not part of the sources under verification). -/
def Post.list (st : Store) : Except Unit (List Post) :=
  if st.failList then .error () else .ok st.posts

/-- Modelled from the spec: `Post.get(id) -> Post or NotFound` (the `data`
module is not part of the sources under verification); a lookup failure and a
storage failure are both `none`, which is how `serve.rs` treats them. -/
def Post.get (st : Store) (id : Int) : Option Post :=
  if st.failGet then none else st.posts.find? (fun p => p.id == id)

/-- Modelled from the spec: `Post.insert(created, updated, content) -> new id
or StorageError` (the `data` module is not part of the sources under
verification). -/
def Post.insert (st : Store) (created updated : Nat) (content : String) :
    Except Unit (Store × Int) :=
  if st.failInsert then .error ()
  else
    .ok ({ st with
            posts := st.posts ++ [⟨st.nextId, created, updated, content⟩],
            nextId := st.nextId + 1 },
         st.nextId)

/-- Modelled from the spec: `Post.update(self) -> Ok or StorageError` (the
`data` module is not part of the sources under verification): the row with the
post's id, when present, is replaced; the row count never changes. -/
def Post.update (st : Store) (p : Post) : Except Unit Store :=
  if st.failUpdate then .error ()
  else .ok { st with posts := st.posts.map (fun q => if q.id == p.id then p else q) }

/-- Modelled from the spec: `Post.delete(id) -> Ok or StorageError` (the
`data` module is not part of the sources under verification): rows with the
given id are removed, all other rows are untouched. -/
def Post.delete (st : Store) (id : Int) : Except Unit Store :=
  if st.failDelete then .error ()
  else .ok { st with posts := st.posts.filter (fun p => p.id != id) }

/-- What a handler hands to the response layer.  Rendering itself is an
external collaborator, so each constructor records the response kind and the
data passed to the renderer. -/
inductive Outcome where
  /-- A plain 200 page (e.g. the delete confirmation view). -/
  | okPage
  /-- A 200 page rendering an unsaved post inline (the preview path). -/
  | okPreview (p : Post)
  /-- A 200 page rendering the edit form for an existing post. -/
  | okEditForm (p : Post)
  /-- A 303 See-Other redirect to `url`. -/
  | seeOther (url : String)
  /-- The not-found page (status 404). -/
  | notFoundPage
  /-- The bare 401 Unauthorized response of `post_delete`. -/
  | unauthorizedResp
  /-- A 500 server-error response. -/
  | serverError
  /-- The handler panicked (an `unwrap` hit an `Err`), producing no response. -/
  | panicked
deriving DecidableEq, Repr

/-- Result of running one handler: the store afterwards, how many times the
backup trigger was invoked, how many storage *write* operations
(insert/update/delete) were invoked, and the outcome. -/
structure HResult where
  store : Store
  triggers : Nat
  writes : Nat
  outcome : Outcome
deriving DecidableEq, Repr

/-! ### The urlencoded form decoder

`serve.rs` reads the raw body, checks it for the literal marker
`publish=Publish`, and decodes it with `serde_urlencoded` into a struct with a
single `content` field.  The decoder below models `serde_urlencoded` for the
ASCII bodies the claims are about: pairs split on `&`, key and value split at
the first `=`, `+` decoded to space, valid `%XY` escapes decoded and invalid
ones passed through; decoding fails (the handler then panics on its `unwrap`)
when the `content` key is absent or duplicated. -/

/-- ASCII whitespace predicate used by `trimChars` (Rust's `str::trim` trims
Unicode whitespace; the bodies in the claims are ASCII). -/
def isWs (c : Char) : Bool :=
  c == ' ' || c == '\t' || c == '\n' || c == '\r'

/-- Trim whitespace from both ends of a character list. -/
def trimChars (l : List Char) : List Char :=
  ((l.dropWhile isWs).reverse.dropWhile isWs).reverse

/-- `trim_newline_suffix` from `serve.rs`: trim the string and append a single
newline (`format!("{}\n", s.trim())`). -/
def trim_newline_suffix (s : String) : String :=
  String.mk (trimChars s.toList ++ ['\n'])

/-- Does `pat` occur at the head of `l`? -/
def leadsWith : List Char → List Char → Bool
  | [], _ => true
  | _ :: _, [] => false
  | a :: pat, b :: l => a == b && leadsWith pat l

/-- Does `pat` occur as a contiguous run inside `l`?  Models Rust's
`str::contains` for an ASCII pattern. -/
def containsSub (pat : List Char) : List Char → Bool
  | [] => pat.isEmpty
  | c :: l => leadsWith pat (c :: l) || containsSub pat l

/-- The literal publish marker checked against the raw body. -/
def pubMarker : List Char := "publish=Publish".toList

/-- Raw-body publish test of `serve.rs`: `input.contains("publish=Publish")`. -/
def isPublish (input : String) : Bool :=
  containsSub pubMarker input.toList

/-- Hex digit value, if any. -/
def hexVal (c : Char) : Option Nat :=
  if '0' ≤ c ∧ c ≤ '9' then some (c.toNat - '0'.toNat)
  else if 'a' ≤ c ∧ c ≤ 'f' then some (c.toNat - 'a'.toNat + 10)
  else if 'A' ≤ c ∧ c ≤ 'F' then some (c.toNat - 'A'.toNat + 10)
  else none

/-- Percent-decoding of a form component: `+` becomes space, a valid `%XY`
escape becomes the decoded character, an invalid escape is passed through
unchanged (as `form_urlencoded` does). -/
def percentDecode : List Char → List Char
  | [] => []
  | '+' :: rest => ' ' :: percentDecode rest
  | '%' :: a :: b :: rest =>
    match hexVal a, hexVal b with
    | some x, some y => Char.ofNat (16 * x + y) :: percentDecode rest
    | _, _ => '%' :: percentDecode (a :: b :: rest)
  | c :: rest => c :: percentDecode rest

/-- Split a body on `&` separators. -/
def splitAmp : List Char → List (List Char)
  | [] => [[]]
  | '&' :: rest => [] :: splitAmp rest
  | c :: rest =>
    match splitAmp rest with
    | [] => [[c]]
    | h :: t => (c :: h) :: t

/-- Split one pair at the first `=`; a pair without `=` has an empty value. -/
def splitEq : List Char → List Char × List Char
  | [] => ([], [])
  | '=' :: rest => ([], rest)
  | c :: rest =>
    let kv := splitEq rest
    (c :: kv.1, kv.2)

/-- Decode the `content` field of an urlencoded body, as
`serde_urlencoded::from_str::<{content: String}>` does: `none` when the
`content` key is missing or duplicated (the deserializer errors there, and the
handler's `unwrap` panics). -/
def parseForm (input : String) : Option String :=
  let pairs := ((splitAmp input.toList).filter (fun l => !l.isEmpty)).map splitEq
  match pairs.filter (fun kv => percentDecode kv.1 == "content".toList) with
  | [kv] => some (String.mk (percentDecode kv.2))
  | _ => none

/-! ### The handlers -/

/-- `post_add` from `serve.rs`: the create endpoint.  `loggedIn` is the result
of the session check; `body` is the collected request body (`none` when body
collection failed — the source's `map_err(..).unwrap()` then panics); `now`
stands for `Utc::now()`. -/
def post_add (loggedIn : Bool) (body : Option String) (now : Nat) (st : Store) :
    HResult :=
  if !loggedIn then ⟨st, 0, 0, .notFoundPage⟩
  else
    match body with
    | none => ⟨st, 0, 0, .panicked⟩
    | some input =>
      let publish := isPublish input
      match parseForm input with
      | none => ⟨st, 0, 0, .panicked⟩
      | some content =>
        if publish then
          match Post.insert st now now (trim_newline_suffix content) with
          | .error _ => ⟨st, 0, 1, .serverError⟩
          | .ok (st2, _) => ⟨st2, 1, 1, .seeOther "/?reset_forms=true"⟩
        else
          ⟨st, 0, 0, .okPreview ⟨0, now, now, content⟩⟩

/-- `post_edit` from `serve.rs`: the edit endpoint for post `id`. -/
def post_edit (loggedIn : Bool) (id : Int) (body : Option String) (now : Nat)
    (st : Store) : HResult :=
  if !loggedIn then ⟨st, 0, 0, .notFoundPage⟩
  else
    match body with
    | none => ⟨st, 0, 0, .panicked⟩
    | some input =>
      let publish := isPublish input
      match parseForm input with
      | none => ⟨st, 0, 0, .panicked⟩
      | some content =>
        let created :=
          match Post.get st id with
          | some p => p.created
          | none => now
        let post : Post := ⟨id, created, now, trim_newline_suffix content⟩
        if publish then
          match Post.update st post with
          | .error _ => ⟨st, 0, 1, .serverError⟩
          | .ok st2 => ⟨st2, 1, 1, .seeOther ("/posts/" ++ toString id)⟩
        else
          ⟨st, 0, 0, .okPreview post⟩

/-- `post_delete` from `serve.rs`: a 401 when unauthenticated, otherwise
`Post::delete(..).unwrap()` (panics on a storage error) followed by the backup
trigger and a redirect to `/`. -/
def post_delete (loggedIn : Bool) (id : Int) (st : Store) : HResult :=
  if !loggedIn then ⟨st, 0, 0, .unauthorizedResp⟩
  else
    match Post.delete st id with
    | .error _ => ⟨st, 0, 1, .panicked⟩
    | .ok st2 => ⟨st2, 1, 1, .seeOther "/"⟩

/-- `get_delete` from `serve.rs`: the delete confirmation view; not-found when
unauthenticated or when the post cannot be fetched. -/
def get_delete (loggedIn : Bool) (id : Int) (st : Store) : HResult :=
  if !loggedIn then ⟨st, 0, 0, .notFoundPage⟩
  else
    match Post.get st id with
    | none => ⟨st, 0, 0, .notFoundPage⟩
    | some _ => ⟨st, 0, 0, .okPage⟩

/-- `get_edit` from `serve.rs`.  Note the source computes `is_logged_in` but
never gates on it: the edit form is rendered for any requester whenever the
post exists; not-found only when the fetch fails. -/
def get_edit (loggedIn : Bool) (id : Int) (st : Store) : HResult :=
  let _ := loggedIn
  match Post.get st id with
  | none => ⟨st, 0, 0, .notFoundPage⟩
  | some p => ⟨st, 0, 0, .okEditForm p⟩

/-- A `GET` on the create path: `app` in `serve.rs` registers `/posts/add`
only for `POST`, so a `GET` falls through to the router's `not_found`
fallback for every requester. -/
def get_add (loggedIn : Bool) (st : Store) : HResult :=
  let _ := loggedIn
  ⟨st, 0, 0, .notFoundPage⟩

/-! ### Pagination -/

/-- `usize` modulus. -/
def USIZE : Nat := 2 ^ 64

/-- Release-mode `usize` decrement: `n.wrapping_sub(1)` for `n < USIZE`. -/
def wsub1 (n : Nat) : Nat := (n + USIZE - 1) % USIZE

/-- What the listing produces: a database-error page, or one page of posts
plus the has-next flag.  The selected posts are recorded before the external
markdown-preview/HTML-wrapping step. -/
inductive ListOut where
  | dbError
  | page (has_next : Bool) (sel : List Post)
deriving DecidableEq, Repr

/-- `list_posts` from `serve.rs`: `start = (page - 1) * 10`, `end = start +
10` in wrapping `usize` arithmetic, `has_next = end < len`, `end` clamped to
`len`, then the slice `posts[start..end]`.  The result is `none` exactly when
the slice would panic (`start > end` after clamping). -/
def list_posts (st : Store) (page : Nat) : Option ListOut :=
  match Post.list st with
  | .error _ => some .dbError
  | .ok posts =>
    let start := wsub1 (page % USIZE) * 10 % USIZE
    let endU := (start + 10) % USIZE
    let has_next := decide (endU < posts.length)
    let endC := min endU posts.length
    if start ≤ endC then
      some (.page has_next ((posts.drop start).take (endC - start)))
    else none

/-- The pagination step of `get_posts` from `serve.rs`:
`pagination.page.unwrap_or(1)` then `list_posts`. -/
def get_posts (st : Store) (pageParam : Option Nat) : Option ListOut :=
  list_posts st (pageParam.getD 1)

/-! ### The scheduler -/

/-- Outcomes of the fallible steps inside `schedule_jobs`: creating the
scheduler, creating and registering each of the two jobs, and starting the
scheduler. -/
structure SchedEnv where
  newSchedulerOk : Bool
  oneShotCreateOk : Bool
  oneShotAddOk : Bool
  cronCreateOk : Bool
  cronAddOk : Bool
  startOk : Bool
deriving DecidableEq, Repr

/-- How `schedule_jobs` ends: it either returns (with the number of errors it
logged along the way) or panics on one of its `unwrap`s. -/
inductive SchedResult where
  | returned (errorsLogged : Nat)
  | panicked
deriving DecidableEq, Repr

/-- `schedule_jobs` from `serve.rs`: a failing `JobScheduler::new` is logged
and the function returns; a failing `scheduler.add` is logged and execution
continues; but `Job::new_one_shot_at_instant_async(..).unwrap()`,
`Job::new_async(..).unwrap()` and `scheduler.start().await.unwrap()` panic. -/
def schedule_jobs (env : SchedEnv) : SchedResult :=
  if !env.newSchedulerOk then .returned 1
  else if !env.oneShotCreateOk then .panicked
  else
    let e1 : Nat := if env.oneShotAddOk then 0 else 1
    if !env.cronCreateOk then .panicked
    else
      let e2 : Nat := if env.cronAddOk then 0 else 1
      if !env.startOk then .panicked
      else .returned (e1 + e2)

/-- `run` from `serve.rs` awaits `schedule_jobs` before binding the HTTP
listener, so the listener starts exactly when `schedule_jobs` returns rather
than panics. -/
def run_reaches_listener (env : SchedEnv) : Bool :=
  match schedule_jobs env with
  | .panicked => false
  | .returned _ => true

/-! ### Helper lemmas about the handlers -/

theorem post_add_publish_ok (st : Store) (input content : String) (now : Nat)
    (hparse : parseForm input = some content) (hpub : isPublish input = true)
    (hok : st.failInsert = false) :
    post_add true (some input) now st =
      ⟨{ st with
          posts := st.posts ++ [⟨st.nextId, now, now, trim_newline_suffix content⟩],
          nextId := st.nextId + 1 },
        1, 1, .seeOther "/?reset_forms=true"⟩ := by
  simp [post_add, hparse, hpub, Post.insert, hok]

theorem post_add_publish_fail (st : Store) (input content : String) (now : Nat)
    (hparse : parseForm input = some content) (hpub : isPublish input = true)
    (hko : st.failInsert = true) :
    post_add true (some input) now st = ⟨st, 0, 1, .serverError⟩ := by
  simp [post_add, hparse, hpub, Post.insert, hko]

theorem post_add_preview (st : Store) (input content : String) (now : Nat)
    (hparse : parseForm input = some content) (hpub : isPublish input = false) :
    post_add true (some input) now st =
      ⟨st, 0, 0, .okPreview ⟨0, now, now, content⟩⟩ := by
  simp [post_add, hparse, hpub]

theorem post_edit_publish_ok (st : Store) (id : Int) (input content : String)
    (now : Nat) (p : Post)
    (hparse : parseForm input = some content) (hpub : isPublish input = true)
    (hget : Post.get st id = some p) (hok : st.failUpdate = false) :
    post_edit true id (some input) now st =
      ⟨{ st with
          posts := st.posts.map (fun q =>
            if q.id == id then ⟨id, p.created, now, trim_newline_suffix content⟩
            else q) },
        1, 1, .seeOther ("/posts/" ++ toString id)⟩ := by
  simp [post_edit, hparse, hpub, hget, Post.update, hok]

theorem post_edit_publish_fail (st : Store) (id : Int) (input content : String)
    (now : Nat)
    (hparse : parseForm input = some content) (hpub : isPublish input = true)
    (hko : st.failUpdate = true) :
    post_edit true id (some input) now st = ⟨st, 0, 1, .serverError⟩ := by
  cases hget : Post.get st id <;>
    simp [post_edit, hparse, hpub, hget, Post.update, hko]

theorem post_edit_preview (st : Store) (id : Int) (input content : String)
    (now : Nat)
    (hparse : parseForm input = some content) (hpub : isPublish input = false) :
    post_edit true id (some input) now st =
      ⟨st, 0, 0,
        .okPreview
          ⟨id,
            match Post.get st id with
            | some p => p.created
            | none => now,
            now, trim_newline_suffix content⟩⟩ := by
  cases hget : Post.get st id <;>
    simp [post_edit, hparse, hpub, hget]

theorem post_delete_ok (st : Store) (id : Int) (hok : st.failDelete = false) :
    post_delete true id st =
      ⟨{ st with posts := st.posts.filter (fun p => p.id != id) },
        1, 1, .seeOther "/"⟩ := by
  simp [post_delete, Post.delete, hok]

theorem post_delete_fail (st : Store) (id : Int) (hko : st.failDelete = true) :
    post_delete true id st = ⟨st, 0, 1, .panicked⟩ := by
  simp [post_delete, Post.delete, hko]

/-! ### Concrete fixtures used by witnesses and counterexamples -/

/-- An empty, fully healthy store. -/
def emptyStore : Store := ⟨[], 1, false, false, false, false, false⟩

def post1 : Post := ⟨1, 3, 4, "aaa\n"⟩

def post2 : Post := ⟨2, 5, 6, "bbb\n"⟩

/-- A healthy store holding two posts. -/
def twoPostStore : Store := ⟨[post1, post2], 3, false, false, false, false, false⟩

/-- The two-post store with a failing `Post::delete`. -/
def failDeleteStore : Store := { twoPostStore with failDelete := true }

/-- The two-post store with a failing `Post::update`. -/
def failUpdateStore : Store := { twoPostStore with failUpdate := true }

/-- The empty store with a failing `Post::insert`. -/
def failInsertStore : Store := { emptyStore with failInsert := true }

/-! ### The claims -/

/-- C1: for every authenticated form submission (a body that decodes to a
`content` field) to the create or edit endpoint, the storage write operation
is invoked if and only if the raw URL-encoded body contains the literal
substring `publish=Publish`; a body without that marker is handled as a
preview (an unsaved post handed to the renderer, store untouched). -/
theorem c1_publish_marker_decides_write (st : Store) (id : Int)
    (input content : String) (now : Nat)
    (hparse : parseForm input = some content) :
    ((post_add true (some input) now st).writes = 1 ↔ isPublish input = true) ∧
    ((post_edit true id (some input) now st).writes = 1 ↔ isPublish input = true) ∧
    (isPublish input = false →
      (post_add true (some input) now st).store = st ∧
      (post_add true (some input) now st).outcome = .okPreview ⟨0, now, now, content⟩ ∧
      (post_edit true id (some input) now st).store = st ∧
      ∃ p, (post_edit true id (some input) now st).outcome = .okPreview p) := by
  refine ⟨?_, ?_, ?_⟩
  · cases hpub : isPublish input
    · rw [post_add_preview st input content now hparse hpub]; simp
    · cases hins : st.failInsert
      · rw [post_add_publish_ok st input content now hparse hpub hins]; simp
      · rw [post_add_publish_fail st input content now hparse hpub hins]; simp
  · cases hpub : isPublish input
    · rw [post_edit_preview st id input content now hparse hpub]; simp
    · cases hupd : st.failUpdate
      · cases hget : Post.get st id with
        | none => simp [post_edit, hparse, hpub, hget, Post.update, hupd]
        | some p =>
          rw [post_edit_publish_ok st id input content now p hparse hpub hget hupd]
          simp
      · rw [post_edit_publish_fail st id input content now hparse hpub hupd]; simp
  · intro hpub
    refine ⟨?_, ?_, ?_, ?_⟩
    · rw [post_add_preview st input content now hparse hpub]
    · rw [post_add_preview st input content now hparse hpub]
    · rw [post_edit_preview st id input content now hparse hpub]
    · exact ⟨_, by rw [post_edit_preview st id input content now hparse hpub]⟩

theorem c1_publish_marker_decides_write_witness :
    ((post_add true (some "content=abc") 7 emptyStore).writes = 1 ↔
        isPublish "content=abc" = true) ∧
    ((post_edit true 1 (some "content=abc") 7 emptyStore).writes = 1 ↔
        isPublish "content=abc" = true) ∧
    (isPublish "content=abc" = false →
      (post_add true (some "content=abc") 7 emptyStore).store = emptyStore ∧
      (post_add true (some "content=abc") 7 emptyStore).outcome =
        .okPreview ⟨0, 7, 7, "abc"⟩ ∧
      (post_edit true 1 (some "content=abc") 7 emptyStore).store = emptyStore ∧
      ∃ p, (post_edit true 1 (some "content=abc") 7 emptyStore).outcome =
        .okPreview p) :=
  c1_publish_marker_decides_write emptyStore 1 "content=abc" "abc" 7 (by decide)

/-- C2: an authenticated preview submission (body decodes to a form, no
publish marker) to the create endpoint leaves the store exactly as it was (in
particular the post count), invokes the backup trigger zero times and no
storage write, and renders the submitted content as an in-memory post with
id `0`. -/
theorem c2_preview_writes_nothing (st : Store) (input content : String)
    (now : Nat)
    (hparse : parseForm input = some content) (hpub : isPublish input = false) :
    (post_add true (some input) now st).store = st ∧
    (post_add true (some input) now st).store.posts.length = st.posts.length ∧
    (post_add true (some input) now st).triggers = 0 ∧
    (post_add true (some input) now st).writes = 0 ∧
    (post_add true (some input) now st).outcome = .okPreview ⟨0, now, now, content⟩ := by
  rw [post_add_preview st input content now hparse hpub]
  exact ⟨rfl, rfl, rfl, rfl, rfl⟩

theorem c2_preview_writes_nothing_witness :
    (post_add true (some "content=hello") 9 twoPostStore).store = twoPostStore ∧
    (post_add true (some "content=hello") 9 twoPostStore).store.posts.length =
      twoPostStore.posts.length ∧
    (post_add true (some "content=hello") 9 twoPostStore).triggers = 0 ∧
    (post_add true (some "content=hello") 9 twoPostStore).writes = 0 ∧
    (post_add true (some "content=hello") 9 twoPostStore).outcome =
      .okPreview ⟨0, 9, 9, "hello"⟩ :=
  c2_preview_writes_nothing twoPostStore "content=hello" "hello" 9
    (by decide) (by decide)

/-- C10: an authenticated submission of the body
`content=%23+Hi%0A&publish=Publish` (the content `"# Hi\n"` plus the publish
marker) to the create endpoint appends exactly one new post whose stored
content is exactly `"# Hi\n"` (trimmed, one trailing newline), with one
storage write and one backup trigger, and responds with a see-other
redirect. -/
theorem c10_concrete_publish_example (st : Store) (now : Nat)
    (hok : st.failInsert = false) :
    post_add true (some "content=%23+Hi%0A&publish=Publish") now st =
      ⟨{ st with
          posts := st.posts ++ [⟨st.nextId, now, now, "# Hi\n"⟩],
          nextId := st.nextId + 1 },
        1, 1, .seeOther "/?reset_forms=true"⟩ := by
  have h := post_add_publish_ok st "content=%23+Hi%0A&publish=Publish" "# Hi\n"
    now (by decide) (by decide) hok
  rwa [show trim_newline_suffix "# Hi\n" = "# Hi\n" from by decide] at h

theorem c10_concrete_publish_example_witness :
    post_add true (some "content=%23+Hi%0A&publish=Publish") 7 emptyStore =
      ⟨⟨[⟨1, 7, 7, "# Hi\n"⟩], 2, false, false, false, false, false⟩,
        1, 1, .seeOther "/?reset_forms=true"⟩ := by
  rw [c10_concrete_publish_example emptyStore 7 (by decide)]
  decide

/-- C3 (counterexample to the claim as stated): an authenticated delete POST
whose storage delete fails invokes the backup trigger zero times — the
handler's `unwrap` panics before the trigger — so not every authenticated
delete POST triggers exactly one backup invocation. -/
theorem c3_delete_failure_counterexample :
    (post_delete true 1 failDeleteStore).triggers = 0 ∧
    (post_delete true 1 failDeleteStore).outcome = .panicked := by
  decide

/-- C3 (amended): every authenticated publish (create or edit) whose storage
write succeeds, and every authenticated delete POST *whose storage delete
succeeds*, invokes the backup trigger exactly once before responding; every
preview invokes it zero times, and a publish or delete whose storage
operation fails invokes it zero times. -/
theorem c3_backup_trigger_counts (st : Store) (id : Int)
    (input content : String) (now : Nat)
    (hparse : parseForm input = some content) :
    (isPublish input = true → st.failInsert = false →
      (post_add true (some input) now st).triggers = 1) ∧
    (isPublish input = true → st.failUpdate = false →
      (post_edit true id (some input) now st).triggers = 1) ∧
    (st.failDelete = false → (post_delete true id st).triggers = 1) ∧
    (isPublish input = false →
      (post_add true (some input) now st).triggers = 0 ∧
      (post_edit true id (some input) now st).triggers = 0) ∧
    (isPublish input = true → st.failInsert = true →
      (post_add true (some input) now st).triggers = 0) ∧
    (isPublish input = true → st.failUpdate = true →
      (post_edit true id (some input) now st).triggers = 0) ∧
    (st.failDelete = true → (post_delete true id st).triggers = 0) := by
  refine ⟨?_, ?_, ?_, ?_, ?_, ?_, ?_⟩
  · intro hpub hins
    rw [post_add_publish_ok st input content now hparse hpub hins]
  · intro hpub hupd
    cases hget : Post.get st id with
    | none => simp [post_edit, hparse, hpub, hget, Post.update, hupd]
    | some p =>
      rw [post_edit_publish_ok st id input content now p hparse hpub hget hupd]
  · intro hdel
    rw [post_delete_ok st id hdel]
  · intro hpub
    rw [post_add_preview st input content now hparse hpub,
      post_edit_preview st id input content now hparse hpub]
    exact ⟨rfl, rfl⟩
  · intro hpub hins
    rw [post_add_publish_fail st input content now hparse hpub hins]
  · intro hpub hupd
    rw [post_edit_publish_fail st id input content now hparse hpub hupd]
  · intro hdel
    rw [post_delete_fail st id hdel]

theorem c3_backup_trigger_counts_witness :
    (post_add true (some "content=x&publish=Publish") 9 twoPostStore).triggers = 1 ∧
    (post_edit true 1 (some "content=x&publish=Publish") 9 twoPostStore).triggers = 1 ∧
    (post_delete true 1 twoPostStore).triggers = 1 ∧
    (post_add true (some "content=x") 9 twoPostStore).triggers = 0 ∧
    (post_add true (some "content=x&publish=Publish") 9 failInsertStore).triggers = 0 ∧
    (post_edit true 1 (some "content=x&publish=Publish") 9 failUpdateStore).triggers = 0 ∧
    (post_delete true 1 failDeleteStore).triggers = 0 := by
  have h1 := c3_backup_trigger_counts twoPostStore 1 "content=x&publish=Publish"
    "x" 9 (by decide)
  have h2 := c3_backup_trigger_counts twoPostStore 1 "content=x" "x" 9 (by decide)
  have h3 := c3_backup_trigger_counts failInsertStore 1 "content=x&publish=Publish"
    "x" 9 (by decide)
  have h4 := c3_backup_trigger_counts failUpdateStore 1 "content=x&publish=Publish"
    "x" 9 (by decide)
  have h5 := c3_backup_trigger_counts failDeleteStore 1 "content=x&publish=Publish"
    "x" 9 (by decide)
  exact ⟨h1.1 (by decide) (by decide), h1.2.1 (by decide) (by decide),
    h1.2.2.1 (by decide), (h2.2.2.2.1 (by decide)).1,
    h3.2.2.2.2.1 (by decide) (by decide),
    h4.2.2.2.2.2.1 (by decide) (by decide), h5.2.2.2.2.2.2 (by decide)⟩

/-- C4: an authenticated publish to the create endpoint whose insert succeeds
appends exactly one row (count + 1) with `created = updated = now`; an
authenticated publish to the edit endpoint whose update succeeds keeps the
count, and every row with the edited id afterwards has `updated = now` and
`created` preserved from the existing row; the updated row is present. -/
theorem c4_publish_count_and_timestamps (st : Store) (id : Int)
    (input content : String) (now : Nat) (p : Post)
    (hparse : parseForm input = some content) (hpub : isPublish input = true) :
    (st.failInsert = false →
      (post_add true (some input) now st).store.posts.length = st.posts.length + 1 ∧
      (post_add true (some input) now st).store.posts =
        st.posts ++ [⟨st.nextId, now, now, trim_newline_suffix content⟩]) ∧
    (st.failUpdate = false → Post.get st id = some p →
      (post_edit true id (some input) now st).store.posts.length = st.posts.length ∧
      (∀ q ∈ (post_edit true id (some input) now st).store.posts,
        q.id = id → q.created = p.created ∧ q.updated = now) ∧
      (⟨id, p.created, now, trim_newline_suffix content⟩ : Post) ∈
        (post_edit true id (some input) now st).store.posts) := by
  constructor
  · intro hins
    rw [post_add_publish_ok st input content now hparse hpub hins]
    simp
  · intro hupd hget
    rw [post_edit_publish_ok st id input content now p hparse hpub hget hupd]
    have hfind : st.posts.find? (fun q => q.id == id) = some p := by
      by_cases hg : st.failGet = true
      · simp [Post.get, hg] at hget
      · simpa [Post.get, hg] using hget
    have hpid : (p.id == id) = true := by simpa using List.find?_some hfind
    have hpmem : p ∈ st.posts := List.mem_of_find?_eq_some hfind
    refine ⟨by simp, ?_, ?_⟩
    · intro q hq hqid
      simp only [List.mem_map] at hq
      obtain ⟨q', hq', hq'eq⟩ := hq
      by_cases h' : (q'.id == id) = true
      · simp only [h', if_true] at hq'eq
        exact ⟨by rw [← hq'eq], by rw [← hq'eq]⟩
      · simp only [h', Bool.false_eq_true, if_false] at hq'eq
        rw [← hq'eq] at hqid
        exact absurd (by simp [hqid]) h'
    · have hm := List.mem_map_of_mem (fun q =>
        if q.id == id then (⟨id, p.created, now, trim_newline_suffix content⟩ : Post)
        else q) hpmem
      simpa [hpid] using hm

theorem c4_publish_count_and_timestamps_witness :
    ((post_add true (some "content=x&publish=Publish") 9 twoPostStore).store.posts.length =
      twoPostStore.posts.length + 1 ∧
      (post_add true (some "content=x&publish=Publish") 9 twoPostStore).store.posts =
        twoPostStore.posts ++ [⟨twoPostStore.nextId, 9, 9, trim_newline_suffix "x"⟩]) ∧
    ((post_edit true 1 (some "content=x&publish=Publish") 9 twoPostStore).store.posts.length =
      twoPostStore.posts.length ∧
      (∀ q ∈ (post_edit true 1 (some "content=x&publish=Publish") 9 twoPostStore).store.posts,
        q.id = 1 → q.created = post1.created ∧ q.updated = 9) ∧
      (⟨1, post1.created, 9, trim_newline_suffix "x"⟩ : Post) ∈
        (post_edit true 1 (some "content=x&publish=Publish") 9 twoPostStore).store.posts) := by
  have h := c4_publish_count_and_timestamps twoPostStore 1
    "content=x&publish=Publish" "x" 9 post1 (by decide) (by decide)
  exact ⟨h.1 (by decide), h.2 (by decide) (by decide)⟩

/-! ### Pagination lemmas -/

theorem usize_val : USIZE = 18446744073709551616 := by norm_num [USIZE]

/-- For a page number `p ≥ 1` whose window arithmetic does not overflow, the
wrapping `usize` computation of `list_posts` collapses to plain arithmetic:
`start = (p - 1) * 10`, `end = start + 10`, clamp, slice-or-panic. -/
theorem list_posts_eq (st : Store) (p : Nat) (hdb : st.failList = false)
    (hp : 1 ≤ p) (hlt : (p - 1) * 10 + 10 < USIZE) :
    list_posts st p =
      if (p - 1) * 10 ≤ min ((p - 1) * 10 + 10) st.posts.length then
        some (.page (decide ((p - 1) * 10 + 10 < st.posts.length))
          ((st.posts.drop ((p - 1) * 10)).take
            (min ((p - 1) * 10 + 10) st.posts.length - (p - 1) * 10)))
      else none := by
  rw [usize_val] at hlt
  have hpW : p < USIZE := by rw [usize_val]; omega
  have h1 : p % USIZE = p := Nat.mod_eq_of_lt hpW
  have h2 : wsub1 p = p - 1 := by
    unfold wsub1
    have : p + USIZE - 1 = (p - 1) + USIZE := by omega
    rw [this, Nat.add_mod_right]
    exact Nat.mod_eq_of_lt (by rw [usize_val] at hpW ⊢; omega)
  have h3 : (p - 1) * 10 % USIZE = (p - 1) * 10 :=
    Nat.mod_eq_of_lt (by rw [usize_val]; omega)
  have h4 : ((p - 1) * 10 + 10) % USIZE = (p - 1) * 10 + 10 :=
    Nat.mod_eq_of_lt (by rw [usize_val]; omega)
  simp only [list_posts, Post.list, hdb, Bool.false_eq_true, if_false, h1, h2,
    h3, h4]

/-- C5: for every page `p ≥ 1` whose window lies within the post collection
(and a realistically sized collection, so the `usize` arithmetic does not
wrap), the listing selects exactly the posts at indices `(p-1)*10` up to
`min((p-1)*10+10, total)` — hence at most 10 — and `has_next` is true iff an
11th post exists beyond the window. -/
theorem c5_pagination_window (st : Store) (p : Nat) (hdb : st.failList = false)
    (hp : 1 ≤ p) (hfit : (p - 1) * 10 ≤ st.posts.length)
    (hsz : st.posts.length + 10 < USIZE) :
    ∃ hn sel, list_posts st p = some (.page hn sel) ∧
      sel.length ≤ 10 ∧
      sel.length = min ((p - 1) * 10 + 10) st.posts.length - (p - 1) * 10 ∧
      (∀ i, i < sel.length → sel[i]? = st.posts[(p - 1) * 10 + i]?) ∧
      (hn = true ↔ (p - 1) * 10 + 10 < st.posts.length) := by
  have hlt : (p - 1) * 10 + 10 < USIZE := by omega
  have hcond : (p - 1) * 10 ≤ min ((p - 1) * 10 + 10) st.posts.length := by omega
  refine ⟨decide ((p - 1) * 10 + 10 < st.posts.length),
    (st.posts.drop ((p - 1) * 10)).take
      (min ((p - 1) * 10 + 10) st.posts.length - (p - 1) * 10), ?_, ?_, ?_, ?_, ?_⟩
  · rw [list_posts_eq st p hdb hp hlt, if_pos hcond]
  · simp only [List.length_take, List.length_drop]
    omega
  · simp only [List.length_take, List.length_drop]
    omega
  · intro i hi
    simp only [List.length_take, List.length_drop] at hi
    rw [List.getElem?_take_of_lt (by omega), List.getElem?_drop]
  · simp

theorem c5_pagination_window_witness :
    ∃ hn sel, list_posts twoPostStore 1 = some (.page hn sel) ∧
      sel.length ≤ 10 ∧
      sel.length = min ((1 - 1) * 10 + 10) twoPostStore.posts.length - (1 - 1) * 10 ∧
      (∀ i, i < sel.length → sel[i]? = twoPostStore.posts[(1 - 1) * 10 + i]?) ∧
      (hn = true ↔ (1 - 1) * 10 + 10 < twoPostStore.posts.length) :=
  c5_pagination_window twoPostStore 1 (by decide) (by decide) (by decide)
    (by rw [usize_val]; norm_num [twoPostStore, post1, post2])

/-- C6 (counterexample to the claim as stated): the listing does not complete
for every requested page number — page `0` underflows `page - 1` and the
subsequent slice panics, and a page whose window starts strictly past the end
of the collection (page 3 of a two-post store) panics on the slice
`posts[start..end]` with `start > end`. -/
theorem c6_out_of_range_counterexample :
    list_posts twoPostStore 0 = none ∧ list_posts twoPostStore 3 = none := by
  constructor <;> decide

/-- C6 (amended): an absent page parameter is treated as page 1, and a page
whose window start `(p-1)*10` is at most the collection length completes —
yielding, at the boundary `(p-1)*10 = total`, an empty listing with no next
link; but page `0` and any page with `(p-1)*10 > total` panic (slice bounds)
rather than yielding an empty listing. -/
theorem c6_pagination_bounds (st : Store) (p : Nat) (hdb : st.failList = false)
    (hp : 1 ≤ p) (hlt : (p - 1) * 10 + 10 < USIZE) :
    get_posts st none = list_posts st 1 ∧
    ((p - 1) * 10 ≤ st.posts.length → ∃ out, list_posts st p = some out) ∧
    ((p - 1) * 10 = st.posts.length → list_posts st p = some (.page false [])) ∧
    (st.posts.length < (p - 1) * 10 → list_posts st p = none) ∧
    list_posts st 0 = none := by
  refine ⟨rfl, ?_, ?_, ?_, ?_⟩
  · intro hfit
    rw [list_posts_eq st p hdb hp hlt, if_pos (by omega)]
    exact ⟨_, rfl⟩
  · intro hbound
    rw [list_posts_eq st p hdb hp hlt, if_pos (by omega)]
    have h10 : min ((p - 1) * 10 + 10) st.posts.length - (p - 1) * 10 = 0 := by
      omega
    have hhn : decide ((p - 1) * 10 + 10 < st.posts.length) = false := by
      simp; omega
    rw [h10, hhn]
    simp
  · intro hpast
    rw [list_posts_eq st p hdb hp hlt, if_neg (by omega)]
  · simp only [list_posts, Post.list, hdb, Bool.false_eq_true, if_false]
    have hz : wsub1 (0 % USIZE) * 10 % USIZE = USIZE - 10 := by decide
    rw [hz]
    have he : (USIZE - 10 + 10) % USIZE = 0 := by decide
    rw [he]
    have : ¬ (USIZE - 10 ≤ min 0 st.posts.length) := by
      rw [usize_val]
      simp
    simp only [this, if_false]

theorem c6_pagination_bounds_witness :
    (get_posts emptyStore none = list_posts emptyStore 1 ∧
      list_posts emptyStore 1 = some (.page false []) ∧
      list_posts emptyStore 0 = none) ∧
    list_posts twoPostStore 2 = none := by
  have h1 := c6_pagination_bounds emptyStore 1 (by decide) (by decide)
    (by rw [usize_val]; norm_num)
  have h2 := c6_pagination_bounds twoPostStore 2 (by decide) (by decide)
    (by rw [usize_val]; norm_num)
  exact ⟨⟨h1.1, h1.2.2.1 (by decide), h1.2.2.2.2⟩, h2.2.2.2.1 (by decide)⟩

/-- C7 (counterexample to the claim as stated): an unauthenticated GET of the
edit route for an existing post is answered with the edit form (a 200 page),
not with the not-found page — `get_edit` computes the session check but never
gates on it. -/
theorem c7_unauthenticated_edit_get_counterexample :
    (get_edit false 1 twoPostStore).outcome = .okEditForm post1 ∧
    (get_edit false 1 twoPostStore).outcome ≠ .notFoundPage := by
  decide

/-- C7 (amended): every unauthenticated request to a create, edit or delete
endpoint leaves the post store unchanged; the create POST, edit POST and
delete GET are answered with the not-found page, a GET on the create path
falls through to the router's not-found fallback, and the delete POST is
answered with 401 Unauthorized (and fires no trigger); but the edit GET does
not consult the session: it is answered with the not-found page exactly when
the post cannot be fetched, and with the edit form otherwise. -/
theorem c7_unauthenticated_requests (st : Store) (id : Int)
    (body : Option String) (now : Nat) :
    (post_add false body now st).store = st ∧
    (post_add false body now st).outcome = .notFoundPage ∧
    (post_edit false id body now st).store = st ∧
    (post_edit false id body now st).outcome = .notFoundPage ∧
    (get_add false st).store = st ∧
    (get_add false st).outcome = .notFoundPage ∧
    (get_delete false id st).store = st ∧
    (get_delete false id st).outcome = .notFoundPage ∧
    (post_delete false id st).store = st ∧
    (post_delete false id st).triggers = 0 ∧
    (post_delete false id st).outcome = .unauthorizedResp ∧
    (get_edit false id st).store = st ∧
    ((get_edit false id st).outcome = .notFoundPage ↔ Post.get st id = none) := by
  refine ⟨?_, ?_, ?_, ?_, ?_, ?_, ?_, ?_, ?_, ?_, ?_, ?_, ?_⟩ <;>
    first
      | simp [post_add, post_edit, get_add, get_delete, post_delete]
      | cases hget : Post.get st id <;> simp [get_edit, hget]

/-- C8: contrary to the claim (and to the error response that the source
itself constructs in its `map_err` closures and then discards), a failure of
request-body collection in the create/edit handlers and a storage failure in
the delete handler hit an `unwrap` and panic the handler instead of producing
an error response. -/
theorem c8_handler_failures_panic :
    post_add true none 7 emptyStore = ⟨emptyStore, 0, 0, .panicked⟩ ∧
    post_edit true 1 none 7 emptyStore = ⟨emptyStore, 0, 0, .panicked⟩ ∧
    post_delete true 1 failDeleteStore = ⟨failDeleteStore, 0, 1, .panicked⟩ := by
  decide

/-- C9 (counterexample to the claim as stated): when creating the one-shot
refresh job fails, `schedule_jobs` hits `Job::new_..(..).unwrap()` and
panics, so `run` never reaches the HTTP listener — a job-creation failure is
not survived. -/
theorem c9_job_creation_failure_counterexample :
    schedule_jobs ⟨true, false, true, true, true, true⟩ = .panicked ∧
    run_reaches_listener ⟨true, false, true, true, true, true⟩ = false := by
  decide

/-- C9 (amended): if the job scheduler fails to initialize, the failure is
logged (one error) and the server continues startup and reaches the HTTP
listener; likewise a failure to register (add) either job is only logged; but
the listener is reached exactly when the scheduler either fails to initialize
or all of job creation and scheduler start succeed — a job-creation or
scheduler-start failure panics and prevents the listener from starting. -/
theorem c9_scheduler_failure_semantics (env : SchedEnv) :
    (env.newSchedulerOk = false → schedule_jobs env = .returned 1 ∧
      run_reaches_listener env = true) ∧
    (env.oneShotCreateOk = true → env.cronCreateOk = true → env.startOk = true →
      run_reaches_listener env = true) ∧
    run_reaches_listener env =
      (!env.newSchedulerOk ||
        (env.oneShotCreateOk && env.cronCreateOk && env.startOk)) := by
  obtain ⟨a, b, c, d, e, f⟩ := env
  cases a <;> cases b <;> cases c <;> cases d <;> cases e <;> cases f <;> decide

theorem c9_scheduler_failure_semantics_witness :
    (schedule_jobs ⟨false, true, true, true, true, true⟩ = .returned 1 ∧
      run_reaches_listener ⟨false, true, true, true, true, true⟩ = true) ∧
    run_reaches_listener ⟨true, true, false, true, false, true⟩ = true :=
  ⟨(c9_scheduler_failure_semantics ⟨false, true, true, true, true, true⟩).1 rfl,
    (c9_scheduler_failure_semantics ⟨true, true, false, true, false, true⟩).2.1
      rfl rfl rfl⟩

end Fx
